import Mathlib

/-!
Verification of the tp-alert-gateway rule compiler and lifecycle manager.

The Go source is shallowly embedded: pure SQL-text generators become Lean
string functions, and the service operations (StartRule, StopRule,
AcknowledgeDevice, persistRule, the HTTP handlers) become pure functions
from their inputs and the engine's responses to the list of engine actions
they issue plus their result.  Engine I/O is represented by an explicit
action trace; machine integers are modelled as Int/Nat; Go pointers that
may be nil become Option.
-/

set_option maxRecDepth 4000

namespace TpAlert

/-- Model of Go strings.ReplaceAll with the single-character pattern used by
GetFormattedRuleID in src/pkg/services/utils.go: every hyphen in the rule id
is replaced by an underscore (character-wise, since pattern and replacement
are single characters). -/
def GetFormattedRuleID (ruleID : String) : String :=
  String.mk (ruleID.data.map (fun c => if c = '-' then '_' else c))

/-- Alert state constant from src/pkg/timeplus/alert_acks.go. -/
def AlertStateActive : String := "active"

/-- Alert state constant from src/pkg/timeplus/alert_acks.go. -/
def AlertStateAcknowledged : String := "acknowledged"

/-- Name of the global mutable acknowledgment stream, from
src/pkg/timeplus/client.go. -/
def AlertAcksMutableStream : String := "tp_alert_acks_mutable"

/-- Name of the rules catalog stream, from src/pkg/services/rule_service.go. -/
def RuleStreamName : String := "tp_rules"

/-- Proposition that the string pat occurs contiguously inside q. -/
def SubstrOf (pat q : String) : Prop :=
  ∃ pre post : String, q = pre ++ pat ++ post

/-- The throttle condition emitted by GetRuleThrottledMaterializedViewQuery
(src/pkg/timeplus/client.go lines 1139-1150), translated byte for byte from
the Go raw string (the continuation lines are tab-indented in the source). -/
def throttleConditionGo (ThrottleMinutes : Int) : String :=
  if 0 ≤ ThrottleMinutes then
    ("(\n\t\t\tack_state = '' OR\n\t\t\tack_state = '" ++ AlertStateAcknowledged ++
      "' OR\n\t\t\t(now() - ") ++ toString ThrottleMinutes ++ "m > ack.created_at)\n\t\t)"
  else
    "ack_state = ''"

/-- The throttle condition as claim C1 states it: ack_state = '' when
throttleMinutes is negative, and otherwise the disjunction
ack_state = '' OR ack_state = 'acknowledged' OR now() - Nm > ack.created_at
(whitespace and grouping parentheses as emitted by the code). -/
def throttleConditionClaim (ThrottleMinutes : Int) : String :=
  if ThrottleMinutes < 0 then
    "ack_state = ''"
  else
    "(\n\t\t\tack_state = '' OR\n\t\t\tack_state = 'acknowledged' OR\n\t\t\t(now() - " ++
      toString ThrottleMinutes ++ "m > ack.created_at)\n\t\t)"

/-- Throttled materialized-view DDL generator, translated from
GetRuleThrottledMaterializedViewQuery in src/pkg/timeplus/client.go
(lines 1128-1185; the template is reproduced byte for byte, split into
concatenation chunks at the fragment boundaries the theorems talk about). -/
def GetRuleThrottledMaterializedViewQuery (ruleID : String) (ThrottleMinutes : Int)
    (idColumnName : String) (triggeringDataExpr : String) (targetAlertStream : String) :
    String :=
  let sanitizedRuleID := GetFormattedRuleID ruleID
  let viewName := "rule_" ++ sanitizedRuleID ++ "_view"
  let mvName := "rule_" ++ sanitizedRuleID ++ "_mv"
  let throttleCondition := throttleConditionGo ThrottleMinutes
  ("\nCREATE MATERIALIZED VIEW `" ++ mvName ++ "` INTO `" ++ targetAlertStream ++
    "` AS\nWITH filtered_events AS (\n    SELECT\n        view.*,\n        ack.state AS ack_state,\n        ack.created_at AS ack_created_at\n    ") ++
  ("FROM `" ++ viewName ++ "` AS view\n    LEFT JOIN `" ++ targetAlertStream ++
    "` AS ack ON view.`" ++ idColumnName ++ "` = ack.entity_id") ++
  "\n    " ++
  ("WHERE (ack.rule_id = '') OR (ack.rule_id = '" ++ ruleID ++ "' AND (" ++
    throttleCondition ++ "))") ++
  ("\n)\nSELECT\n    '" ++ ruleID ++ "' AS rule_id,\n    fe.`" ++ idColumnName ++
    "` AS entity_id,\n    '" ++ AlertStateActive ++ "' AS state,\n    ") ++
  "coalesce(fe.ack_created_at, now()) AS created_at,\n    now() AS updated_at" ++
  (",\n    '' AS updated_by,\n    " ++ triggeringDataExpr ++
    " AS comment\nFROM filtered_events AS fe")

/-- Engine values as formatted by Client.InsertIntoStream in
src/pkg/timeplus/client.go: strings, integers, booleans, timestamps
(modelled as abstract Nat instants) and the Go nil that is rendered as the
SQL literal null. -/
inductive Value where
  | str (s : String)
  | int (n : Int)
  | bool (b : Bool)
  | time (t : Nat)
  | null

deriving DecidableEq, Repr

/-- Rule record, with the fields of models.Rule that
src/pkg/services/rule_service.go reads and writes (the models package file
itself is not under src/; the field set is exactly the one used by the
service and by the tp_rules schema).  Go's *bool and *time.Time become
Option; time.Time becomes an abstract Nat instant; the Go string types
RuleStatus and RuleSeverity are plain strings. -/
structure Rule where
  ID : String
  Name : String
  Description : String
  Query : String
  ResolveQuery : String
  Status : String
  Severity : String
  ThrottleMinutes : Int
  EntityIDColumns : String
  CreatedAt : Nat
  UpdatedAt : Nat
  LastTriggeredAt : Option Nat
  ResultStream : String
  ViewName : String
  ResolveViewName : String
  LastError : String
  DedicatedAlertAcksStream : Option Bool
  AlertAcksStreamName : String

deriving DecidableEq, Repr

/-- Modelled from the spec: the models package rule-status constants are not
under src/; section 3 of the spec lists the status values. -/
def RuleStatusCreated : String := "created"

/-- Modelled from the spec: rule-status constant, see RuleStatusCreated. -/
def RuleStatusRunning : String := "running"

/-- Modelled from the spec: rule-status constant, see RuleStatusCreated. -/
def RuleStatusStopped : String := "stopped"

/-- Modelled from the spec: rule-status constant, see RuleStatusCreated. -/
def RuleStatusFailed : String := "failed"

/-- Column list of the persistRule insert
(src/pkg/services/rule_service.go lines 413-420). -/
def persistRuleColumns : List String :=
  ["id", "name", "description", "query", "resolve_query", "status", "severity",
   "throttle_minutes", "entity_id_columns", "created_at", "updated_at",
   "last_triggered_at", "result_stream", "view_name", "resolve_view_name",
   "last_error", "dedicated_alert_acks_stream", "alert_acks_stream_name", "active"]

/-- Values of the persistRule insert, translated from persistRule in
src/pkg/services/rule_service.go (lines 365-458).  The interface-typed
locals of the Go code (bool-or-nil, string-or-nil) are Option/Value;
dedicatedStreamValue reproduces the explicit re-typing block at lines
391-403, which always inserts a boolean (false when the pointer was nil). -/
def persistRuleValues (rule : Rule) (active : Bool) : List Value :=
  let lastTriggeredAt : Value :=
    match rule.LastTriggeredAt with
    | some t => Value.time t
    | none => Value.null
  let dedicatedAlertAcksStream : Option Bool :=
    match rule.DedicatedAlertAcksStream with
    | some b => some b
    | none => if active then some false else none
  let dedicatedStreamValue : Bool :=
    match dedicatedAlertAcksStream with
    | some v => v
    | none => false
  let alertAcksStreamName : Value :=
    if rule.AlertAcksStreamName ≠ "" then Value.str rule.AlertAcksStreamName
    else Value.null
  [Value.str rule.ID, Value.str rule.Name, Value.str rule.Description,
   Value.str rule.Query, Value.str rule.ResolveQuery, Value.str rule.Status,
   Value.str rule.Severity, Value.int rule.ThrottleMinutes,
   Value.str rule.EntityIDColumns, Value.time rule.CreatedAt,
   Value.time rule.UpdatedAt, lastTriggeredAt, Value.str rule.ResultStream,
   Value.str rule.ViewName, Value.str rule.ResolveViewName,
   Value.str rule.LastError, Value.bool dedicatedStreamValue,
   alertAcksStreamName, Value.bool active]

/-- Concrete rule for the C4 counterexample: the dedicatedAlertAcksStream
pointer is nil (omitted). -/
def c4Rule : Rule :=
  { ID := "r-1", Name := "n", Description := "", Query := "SELECT 1",
    ResolveQuery := "", Status := "stopped", Severity := "info",
    ThrottleMinutes := 0, EntityIDColumns := "", CreatedAt := 0, UpdatedAt := 0,
    LastTriggeredAt := none, ResultStream := "rule_r_1_results",
    ViewName := "rule_r_1_view", ResolveViewName := "", LastError := "",
    DedicatedAlertAcksStream := none, AlertAcksStreamName := "" }

/-- Engine calls issued by the service layer, as an explicit action trace. -/
inductive EngineAction where
  | executeQuery (sql : String)
  | executeDDL (sql : String)
  | deleteMaterializedView (name : String)
  | deleteStream (name : String)
  | listStreams
  | insertIntoStream (stream : String) (columns : List String) (values : List Value)
  | ensureMutableStream (name : String)
  | setupMutableAlertAcksStream

deriving DecidableEq, Repr

/-- StopRule from src/pkg/services/rule_service.go (lines 1543-1607),
modelled as the sequence of engine actions it issues.  rule is the record
GetRule returned; streamsRes is the ListStreams response (none models an
error, which the code only logs); now is the clock instant used for
UpdatedAt.  Errors of the individual drops are logged and ignored by the
code, so they do not influence the trace.  The trailing insert is the
persistRule call recording status stopped (with active = true). -/
def stopRuleActions (rule : Rule) (streamsRes : Option (List String)) (now : Nat) :
    Except String (List EngineAction) :=
  if rule.Status ≠ RuleStatusRunning then
    Except.error "rule is not running"
  else
    let alertViewName := "rule_" ++ rule.ID ++ "_alert_view"
    let acksViewName := "rule_" ++ rule.ID ++ "_acks_view"
    let stopped := { rule with Status := RuleStatusStopped, UpdatedAt := now }
    Except.ok
      ([EngineAction.listStreams] ++
       (match streamsRes with
        | none => []
        | some streams =>
            streams.filterMap (fun stream =>
              if stream = alertViewName then
                some (EngineAction.executeQuery ("DROP VIEW `" ++ alertViewName ++ "`"))
              else none)) ++
       [EngineAction.deleteMaterializedView rule.ViewName,
        EngineAction.deleteMaterializedView acksViewName] ++
       (if rule.ResolveViewName ≠ "" then
          [EngineAction.deleteMaterializedView
             ("rule_" ++ GetFormattedRuleID rule.ID ++ "_resolve_mv"),
           EngineAction.executeQuery
             ("DROP VIEW IF EXISTS `" ++ rule.ResolveViewName ++ "`")]
        else []) ++
       [EngineAction.insertIntoStream RuleStreamName persistRuleColumns
          (persistRuleValues stopped true)])

/-- Concrete running rule (with a resolver) for C2: its artifacts are
rule_ab_1_view, rule_ab_1_mv, rule_ab_1_resolve_view, rule_ab_1_resolve_mv. -/
def c2Rule : Rule :=
  { ID := "ab-1", Name := "r", Description := "", Query := "SELECT 1",
    ResolveQuery := "SELECT 2", Status := "running", Severity := "info",
    ThrottleMinutes := 1, EntityIDColumns := "", CreatedAt := 0, UpdatedAt := 0,
    LastTriggeredAt := none, ResultStream := "rule_ab_1_results",
    ViewName := "rule_ab_1_view", ResolveViewName := "rule_ab_1_resolve_view",
    LastError := "", DedicatedAlertAcksStream := some false,
    AlertAcksStreamName := "" }

/-- The exact action trace StopRule issues on c2Rule. -/
def c2Trace : List EngineAction :=
  [EngineAction.listStreams,
   EngineAction.deleteMaterializedView "rule_ab_1_view",
   EngineAction.deleteMaterializedView "rule_ab-1_acks_view",
   EngineAction.deleteMaterializedView "rule_ab_1_resolve_mv",
   EngineAction.executeQuery "DROP VIEW IF EXISTS `rule_ab_1_resolve_view`",
   EngineAction.insertIntoStream RuleStreamName persistRuleColumns
     (persistRuleValues { c2Rule with Status := "stopped", UpdatedAt := 7 } true)]

deriving instance DecidableEq for Except

/-- Go strings.Split with a single-character separator, as used on alert ids
and entityIdColumns: the string is cut at every occurrence of the
separator, keeping empty parts. -/
def goSplitAux (sep : Char) : List Char → List Char → List String
  | [], acc => [String.mk acc.reverse]
  | c :: rest, acc =>
      if c = sep then String.mk acc.reverse :: goSplitAux sep rest []
      else goSplitAux sep rest (c :: acc)

/-- Split a string at every occurrence of sep (Go strings.Split). -/
def goSplit (s : String) (sep : Char) : List String :=
  goSplitAux sep s.data []

/-- ASCII whitespace test for the Go strings.TrimSpace model. -/
def isSpaceChar (c : Char) : Bool :=
  c = ' ' || c = '\t' || c = '\n' || c = '\r'

/-- Model of Go strings.TrimSpace restricted to ASCII whitespace. -/
def trimSpace (s : String) : String :=
  String.mk (((s.data.dropWhile isSpaceChar).reverse.dropWhile isSpaceChar).reverse)

/-- Output column of DESCRIBE on a view: name and type string. -/
structure ColumnInfo where
  name : String
  type : String

deriving DecidableEq, Repr

/-- Comma-split plus whitespace trim applied to entityIdColumns
(StartRule, src/pkg/services/rule_service.go lines 833-840). -/
def splitTrimColumns (entityIDColumns : String) : List String :=
  (goSplit entityIDColumns ',').map trimSpace

/-- Columns of the view that match one of the user-specified
entityIdColumns, in view-column order (StartRule lines 842-855). -/
def matchedUserColumns (userSpecifiedColumns : List String)
    (columnResults : List ColumnInfo) : List String :=
  columnResults.filterMap (fun column =>
    if userSpecifiedColumns.contains column.name then some column.name else none)

/-- Priority names of the fallback search (StartRule line 912). -/
def priorityColumns : List String :=
  ["entity_id", "device_id", "id", "host", "ip", "user_id"]

/-- Fallback entity-id selection (StartRule lines 910-932): the view's
columns are scanned in view-column order and the first whose name is one of
the priority names is returned; empty string when none matches. -/
def findPriorityIdColumn : List ColumnInfo → String
  | [] => ""
  | column :: rest =>
      if priorityColumns.contains column.name then column.name
      else findPriorityIdColumn rest

/-- Boolean substring test (Go strings.Contains). -/
def strContainsSub (hay pat : String) : Bool :=
  hay.data.tails.any (fun t => pat.data.isPrefixOf t)

/-- First column whose type string contains "string"
(StartRule lines 935-951). -/
def findFirstStringColumn : List ColumnInfo → String
  | [] => ""
  | column :: rest =>
      if strContainsSub column.type "string" then column.name
      else findFirstStringColumn rest

/-- Result of entity-id resolution: a directly usable column, a rebuilt view
with a concatenated entity_id, or a rebuilt view with the md5 hash of
_tp_time. -/
inductive EntityIdResolution where
  | direct (name : String)
  | concatenated (foundColumns : List String)
  | hashed

deriving DecidableEq, Repr

/-- Entity-id resolution of StartRule (lines 826-983): user-specified
columns first (exactly one match is used directly; several matches rebuild
the view with a concat expression and use entity_id); otherwise the
priority-name fallback; otherwise the first string-typed column; otherwise
the md5 hash of _tp_time. -/
def resolveEntityIdColumn (entityIDColumns : String)
    (columnResults : List ColumnInfo) : EntityIdResolution :=
  let foundColumns :=
    if entityIDColumns ≠ "" then
      matchedUserColumns (splitTrimColumns entityIDColumns) columnResults
    else []
  match foundColumns with
  | [c] => EntityIdResolution.direct c
  | [] =>
      let fallback := findPriorityIdColumn columnResults
      if fallback ≠ "" then EntityIdResolution.direct fallback
      else
        let strCol := findFirstStringColumn columnResults
        if strCol ≠ "" then EntityIdResolution.direct strCol
        else EntityIdResolution.hashed
  | cs => EntityIdResolution.concatenated cs

/-- The id column name the rest of StartRule uses for a resolution result. -/
def EntityIdResolution.idColumnName : EntityIdResolution → String
  | .direct c => c
  | .concatenated _ => "entity_id"
  | .hashed => "entity_id"

/-- The selection rule claim C3 states: among the priority names, the first
in priority-list order that occurs among the view's columns. -/
def priorityOrderFirst (columnResults : List ColumnInfo) : Option String :=
  priorityColumns.find? (fun p => columnResults.any (fun c => c.name == p))

/-- Concrete view columns for the C3 counterexample: both host and entity_id
are present; host comes first in view order, entity_id first in priority
order. -/
def c3Cols : List ColumnInfo :=
  [{ name := "host", type := "string" }, { name := "entity_id", type := "string" }]

/-- StopRule HTTP handler (src/pkg/api/handlers.go lines 146-155): any error
from the service is answered with status 500; success with 200.  There is
no inspection of the error kind. -/
def stopRuleHandlerStatus (serviceResult : Except String Unit) : Nat :=
  match serviceResult with
  | Except.error _ => 500
  | Except.ok _ => 200

/-- Patch request of UpdateRule; Go pointer fields become Option
(the models package file is not under src/; the field set is the one
UpdateRule reads at src/pkg/services/rule_service.go lines 474-500). -/
structure UpdateRuleRequest where
  Name : Option String
  Description : Option String
  Query : Option String
  ResolveQuery : Option String
  Severity : Option String
  ThrottleMinutes : Option Int
  EntityIDColumns : Option String
  DedicatedAlertAcksStream : Option Bool
  AlertAcksStreamName : Option String

deriving DecidableEq, Repr

/-- UpdateRule service (src/pkg/services/rule_service.go lines 461-510):
refuses unless the current status is created or stopped, otherwise applies
the non-nil patches, stamps UpdatedAt, and persists with active = true.
rule is the record GetRule returned; persistOk the insert outcome. -/
def updateRule (rule : Rule) (req : UpdateRuleRequest) (now : Nat) (persistOk : Bool) :
    Except String Rule × List EngineAction :=
  if rule.Status ≠ RuleStatusCreated ∧ rule.Status ≠ RuleStatusStopped then
    (Except.error ("cannot update rule in " ++ rule.Status ++ " state"), [])
  else
    let updated : Rule :=
      { rule with
        Name := req.Name.getD rule.Name,
        Description := req.Description.getD rule.Description,
        Query := req.Query.getD rule.Query,
        ResolveQuery := req.ResolveQuery.getD rule.ResolveQuery,
        Severity := req.Severity.getD rule.Severity,
        ThrottleMinutes := req.ThrottleMinutes.getD rule.ThrottleMinutes,
        EntityIDColumns := req.EntityIDColumns.getD rule.EntityIDColumns,
        DedicatedAlertAcksStream :=
          match req.DedicatedAlertAcksStream with
          | some b => some b
          | none => rule.DedicatedAlertAcksStream,
        AlertAcksStreamName := req.AlertAcksStreamName.getD rule.AlertAcksStreamName,
        UpdatedAt := now }
    (if persistOk then Except.ok updated
     else Except.error "failed to persist updated rule",
     [EngineAction.insertIntoStream RuleStreamName persistRuleColumns
        (persistRuleValues updated true)])

/-- UpdateRule HTTP handler (src/pkg/api/handlers.go lines 103-119): a json
binding failure is answered 400; any service error 500; success 200. -/
def updateRuleHandlerStatus (bindOk : Bool) (serviceResult : Except String Rule) : Nat :=
  if ¬ bindOk then 400
  else
    match serviceResult with
    | Except.error _ => 500
    | Except.ok _ => 200

/-- GetRule HTTP handler (src/pkg/api/handlers.go lines 39-47): any error is
answered 404. -/
def getRuleHandlerStatus (serviceResult : Except String Rule) : Nat :=
  match serviceResult with
  | Except.error _ => 404
  | Except.ok _ => 200

/-- DeleteRule HTTP handler (src/pkg/api/handlers.go lines 122-131): any
service error is answered 500; success 200. -/
def deleteRuleHandlerStatus (serviceResult : Except String Unit) : Nat :=
  match serviceResult with
  | Except.error _ => 500
  | Except.ok _ => 200

/-- StartRule HTTP handler (src/pkg/api/handlers.go lines 134-143): any
service error is answered 500; success 200. -/
def startRuleHandlerStatus (serviceResult : Except String Unit) : Nat :=
  match serviceResult with
  | Except.error _ => 500
  | Except.ok _ => 200

/-- AcknowledgeAlert HTTP handler (src/pkg/api/handlers.go lines 180-196):
a json binding failure is answered 400; any service error 500; success
200. -/
def acknowledgeAlertHandlerStatus (bindOk : Bool)
    (serviceResult : Except String Unit) : Nat :=
  if ¬ bindOk then 400
  else
    match serviceResult with
    | Except.error _ => 500
    | Except.ok _ => 200

/-- GetRules HTTP handler (src/pkg/api/handlers.go lines 29-36): any service
error is answered 500; success 200. -/
def getRulesHandlerStatus (serviceResult : Except String (List Rule)) : Nat :=
  match serviceResult with
  | Except.error _ => 500
  | Except.ok _ => 200

/-- GetAlerts HTTP handler (src/pkg/api/handlers.go lines 157-166): any
service error is answered 500; success 200 (the alert payload plays no role
in the status and is elided). -/
def getAlertsHandlerStatus (serviceResult : Except String Unit) : Nat :=
  match serviceResult with
  | Except.error _ => 500
  | Except.ok _ => 200

/-- GetAlert HTTP handler (src/pkg/api/handlers.go lines 168-177): any
service error is answered 404; success 200. -/
def getAlertHandlerStatus (serviceResult : Except String Unit) : Nat :=
  match serviceResult with
  | Except.error _ => 404
  | Except.ok _ => 200

/-- GetAlertRawData HTTP handler (src/pkg/api/handlers.go lines 49-77): any
service error is answered 404; on success a failure to parse the alert's
data JSON is answered 500, otherwise 200. -/
def getAlertRawDataHandlerStatus (serviceResult : Except String Unit)
    (jsonOk : Bool) : Nat :=
  match serviceResult with
  | Except.error _ => 404
  | Except.ok _ => if ¬ jsonOk then 500 else 200

/-- GetAlertsByTimeRange HTTP handler (src/pkg/api/handlers.go lines
199-235): an unparsable non-empty start_time or end_time is answered 400
(an empty parameter defaults and counts as parsed here); any service error
500; success 200. -/
def getAlertsByTimeRangeHandlerStatus (startTimeOk endTimeOk : Bool)
    (serviceResult : Except String Unit) : Nat :=
  if ¬ startTimeOk then 400
  else if ¬ endTimeOk then 400
  else
    match serviceResult with
    | Except.error _ => 500
    | Except.ok _ => 200

/-- Concrete stopped rule for the C5 counterexample. -/
def c5StoppedRule : Rule :=
  { ID := "ef-3", Name := "r", Description := "", Query := "SELECT 1",
    ResolveQuery := "", Status := "stopped", Severity := "info",
    ThrottleMinutes := 0, EntityIDColumns := "", CreatedAt := 0, UpdatedAt := 0,
    LastTriggeredAt := none, ResultStream := "rule_ef_3_results",
    ViewName := "rule_ef_3_view", ResolveViewName := "", LastError := "",
    DedicatedAlertAcksStream := some false, AlertAcksStreamName := "" }

/-- Concrete running rule for the C5 counterexample. -/
def c5RunningRule : Rule :=
  { c5StoppedRule with ID := "ef-4", Status := "running" }

/-- Empty patch request for the C5 counterexample. -/
def c5EmptyReq : UpdateRuleRequest :=
  { Name := none, Description := none, Query := none, ResolveQuery := none,
    Severity := none, ThrottleMinutes := none, EntityIDColumns := none,
    DedicatedAlertAcksStream := none, AlertAcksStreamName := none }

/-- Create request of the rule-creation endpoint; the field set is the one
the handler and CreateRule read (the models package file is not under
src/). -/
structure CreateRuleRequest where
  Name : String
  Description : String
  Query : String
  ResolveQuery : String
  Severity : String
  ThrottleMinutes : Int
  EntityIDColumns : String
  SourceStream : String
  DedicatedAlertAcksStream : Option Bool
  AlertAcksStreamName : String

deriving DecidableEq, Repr

/-- CreateRule HTTP handler (src/pkg/api/handlers.go lines 80-100), as the
pair of the HTTP status and whether the service CreateRule (and hence any
persist) was invoked.  bindOk models the json binding outcome; serviceOk
the service result.  The validation is exactly
name, query and source_stream non-empty; severity is never inspected. -/
def createRuleHandler (bindOk : Bool) (req : CreateRuleRequest) (serviceOk : Bool) :
    Nat × Bool :=
  if ¬ bindOk then (400, false)
  else if req.Name = "" ∨ req.Query = "" ∨ req.SourceStream = "" then (400, false)
  else if serviceOk then (201, true) else (500, true)

/-- Base request for the C6 counterexample. -/
def c6Req : CreateRuleRequest :=
  { Name := "High Temp", Description := "", Query := "SELECT 1",
    ResolveQuery := "", Severity := "critical", ThrottleMinutes := 1,
    EntityIDColumns := "", SourceStream := "", DedicatedAlertAcksStream := none,
    AlertAcksStreamName := "" }

/-- Row of the mutable alert acknowledgment stream
(schema GetMutableAlertAcksSchema in src/pkg/timeplus/client.go). -/
structure AckRow where
  rule_id : String
  entity_id : String
  state : String
  created_at : Nat
  updated_at : Nat
  updated_by : String
  comment : String

deriving DecidableEq, Repr

/-- SQL text GetActiveAlertAcks builds
(src/pkg/services/rule_service.go lines 1650-1672): filters on rule_id and
entity_id are added only when the argument is non-empty; the state filter
is always added. -/
def getActiveAlertAcksSQL (ruleID entityID : String) : String :=
  let whereConditions : List String :=
    (if ruleID ≠ "" then ["rule_id = '" ++ ruleID ++ "'"] else []) ++
    (if entityID ≠ "" then ["entity_id = '" ++ entityID ++ "'"] else []) ++
    ["state = '" ++ AlertStateActive ++ "'"]
  ("SELECT * FROM table(" ++ AlertAcksMutableStream ++ ")") ++
  (if whereConditions.length > 0 then
    " WHERE " ++ String.intercalate " AND " whereConditions
   else "") ++
  " ORDER BY updated_at DESC"

/-- Result of the GetActiveAlertAcks query over a model of the mutable acks
table: exactly the rows the conditional WHERE clause selects (an empty
ruleID or entityID argument drops that filter). -/
def getActiveAlertAcks (table : List AckRow) (ruleID entityID : String) : List AckRow :=
  table.filter (fun row =>
    (ruleID == "" || row.rule_id == ruleID) &&
    ((entityID == "" || row.entity_id == entityID) &&
     (row.state == AlertStateActive)))

/-- Primary-key upsert of the mutable acks stream: writing a row replaces
any row with the same (rule_id, entity_id). -/
def upsertAck (table : List AckRow) (row : AckRow) : List AckRow :=
  table.filter (fun r => !(r.rule_id == row.rule_id && r.entity_id == row.entity_id)) ++ [row]

/-- Acknowledgment insert SQL
(src/pkg/services/rule_service.go lines 1698-1707). -/
def acknowledgeInsertSQL (ruleID entityID acknowledgedBy comment : String) : String :=
  "\n\t\tINSERT INTO " ++ AlertAcksMutableStream ++
  " (rule_id, entity_id, state, created_at, updated_at, updated_by, comment)\n\t\tVALUES ('" ++
  ruleID ++ "', '" ++ entityID ++ "', '" ++ AlertStateAcknowledged ++
  "', now(), now(), '" ++ acknowledgedBy ++ "', '" ++ comment ++ "')\n\t"

/-- AcknowledgeDevice (src/pkg/services/rule_service.go lines 1686-1716)
over the modelled acks table: queries the active acks; with none it errors
and issues no further engine call; otherwise it runs the acknowledged-state
insert, whose effect on the mutable stream is the primary-key upsert. -/
def acknowledgeDevice (table : List AckRow)
    (ruleID entityID acknowledgedBy comment : String) (now : Nat) :
    Except String (List AckRow) × List EngineAction :=
  let acks := getActiveAlertAcks table ruleID entityID
  let queryAct := EngineAction.executeQuery (getActiveAlertAcksSQL ruleID entityID)
  if acks.length = 0 then
    (Except.error ("no active alerts found for entity " ++ entityID ++
       " with rule " ++ ruleID), [queryAct])
  else
    (Except.ok (upsertAck table
       { rule_id := ruleID, entity_id := entityID, state := AlertStateAcknowledged,
         created_at := now, updated_at := now, updated_by := acknowledgedBy,
         comment := comment }),
     [queryAct,
      EngineAction.executeQuery
        (acknowledgeInsertSQL ruleID entityID acknowledgedBy comment)])

/-- AcknowledgeAlert (src/pkg/services/rule_service.go lines 1529-1540):
splits the composite id on every colon; unless exactly two parts result it
errors before any engine call; otherwise it delegates to AcknowledgeDevice
with the fixed comment. -/
def acknowledgeAlert (table : List AckRow) (id acknowledgedBy : String) (now : Nat) :
    Except String (List AckRow) × List EngineAction :=
  let parts := goSplit id ':'
  if parts.length ≠ 2 then
    (Except.error "invalid alert ID format, expected 'rule_id:entity_id'", [])
  else
    acknowledgeDevice table ((parts[0]?).getD "") ((parts[1]?).getD "")
      acknowledgedBy "Acknowledged via API" now

/-- Concrete acks table for the C8 counterexample: one active row whose
rule_id is r2. -/
def c8Table : List AckRow :=
  [{ rule_id := "r2", entity_id := "e", state := "active", created_at := 1,
     updated_at := 1, updated_by := "", comment := "" }]

/-- Plain-view DDL generator GetRulePlainViewQuery
(src/pkg/timeplus/client.go lines 1118-1124). -/
def GetRulePlainViewQuery (ruleID ruleQuery : String) : String :=
  "CREATE VIEW " ++ ("rule_" ++ GetFormattedRuleID ruleID ++ "_view") ++ " AS " ++ ruleQuery

/-- Resolver materialized-view DDL generator GetRuleResolveViewQuery
(src/pkg/timeplus/client.go lines 1189-1218).  Note the FROM clause names
the plain rule view, exactly as the source does. -/
def GetRuleResolveViewQuery (ruleID idColumnName targetAlertStream : String) : String :=
  let sanitizedRuleID := GetFormattedRuleID ruleID
  let viewName := "rule_" ++ sanitizedRuleID ++ "_view"
  let mvName := "rule_" ++ sanitizedRuleID ++ "_resolve_mv"
  "\nCREATE MATERIALIZED VIEW `" ++ mvName ++ "` INTO `" ++ targetAlertStream ++
  "` AS\nSELECT\n    '" ++ ruleID ++ "' AS rule_id,\n    `" ++ idColumnName ++
  "` AS entity_id,\n    '" ++ AlertStateAcknowledged ++
  "' AS state,\n    now() AS created_at,\n    now() AS updated_at,\n    'auto-resolver' AS updated_by,\n    '\x7b\"reason\": \"Auto-resolved by resolve query\"\x7d' AS comment\nFROM `" ++
  viewName ++ "`"

/-- Entity-id concat expression for several matched user columns
(StartRule lines 866-874): the columns joined with underscore literals. -/
def entityIdConcatExpression (foundColumns : List String) : String :=
  "concat(" ++ String.intercalate ", " (foundColumns.intersperse "'_'") ++ ")"

/-- Synthesized entity id when no usable column exists (StartRule line 956). -/
def md5EntityIdExpression : String := "lower(hex(md5(toString(_tp_time))))"

/-- Per-column fragments of the triggering-data JSON expression
(StartRule lines 1058-1071): internal columns and the entity-id column are
skipped. -/
def dataCaptureParts (columnResults : List ColumnInfo) (idColumnName : String) :
    List String :=
  columnResults.filterMap (fun column =>
    if column.name = "" ∨ column.name = "_tp_time" ∨ column.name = "_tp_sn" ∨
        column.name = idColumnName then none
    else
      some ("concat('\"" ++ column.name ++ "\": \"', to_string(`" ++
        column.name ++ "`), '\"')"))

/-- Triggering-data JSON expression (StartRule lines 1073-1084). -/
def triggeringDataExprOf (columnResults : List ColumnInfo) (idColumnName : String) :
    String :=
  let parts := dataCaptureParts columnResults idColumnName
  if parts = [] then "'\x7b\x7d'"
  else
    "concat('\x7b', array_string_concat([" ++ String.intercalate ", " parts ++
      "], ', '), '\x7d')"

/-- Engine responses of one StartRule run: one field per fallible engine
interaction, in program order.  Bounded retry loops of the source are
collapsed to a single attempt whose outcome is the loop's final outcome. -/
structure StartEnv where
  setupAcksOk : Bool
  ensureMutableOk : Bool
  dropViewOk : String → Bool
  createPlainViewOk : Bool
  createResolveViewOk : Bool
  describeCols : Option (List ColumnInfo)
  createModifiedViewOk : Bool
  createModifiedResolveOk : Bool
  describeResolveCols : Option (List ColumnInfo)
  createMVOk : Bool
  persistRunningOk : Bool
  createResolveView2Ok : Bool
  createResolveMVOk : Bool

/-- StartRule from src/pkg/services/rule_service.go (lines 619-1217),
modelled as a pure function from the fetched rule record, the engine
responses and the clock to the result and the engine-action trace.
Modelling notes: sleeps are dropped; the bounded retry loops around drops
and creates are collapsed to one attempt; the formatted causes appended to
last_error messages are omitted.  A rule already in status running returns
success immediately, before any engine call. -/
def startRule (rule : Rule) (env : StartEnv) (now : Nat) :
    Except String Unit × List EngineAction :=
  if rule.Status = RuleStatusRunning then (Except.ok (), [])
  else
    let sanitizedRuleID := GetFormattedRuleID rule.ID
    let plainViewName := "rule_" ++ sanitizedRuleID ++ "_view"
    let materializedViewName := "rule_" ++ sanitizedRuleID ++ "_mv"
    let resolveViewName := "rule_" ++ sanitizedRuleID ++ "_resolve_view"
    let resolveMaterializedViewName := "rule_" ++ sanitizedRuleID ++ "_resolve_mv"
    let useDedicatedStream : Bool :=
      if rule.AlertAcksStreamName ≠ "" then true
      else rule.DedicatedAlertAcksStream.getD false
    let targetAlertStreamName :=
      if rule.AlertAcksStreamName ≠ "" then rule.AlertAcksStreamName
      else if rule.DedicatedAlertAcksStream.getD false then
        "rule_" ++ sanitizedRuleID ++ "_alert_acks"
      else AlertAcksMutableStream
    let persistFailedWith (base : Rule) (msg : String) : EngineAction :=
      EngineAction.insertIntoStream RuleStreamName persistRuleColumns
        (persistRuleValues { base with Status := RuleStatusFailed, LastError := msg } true)
    let persistFailed (msg : String) : EngineAction := persistFailedWith rule msg
    let dropPlainAct :=
      EngineAction.executeDDL ("DROP VIEW IF EXISTS " ++ plainViewName)
    let dropResolveAct :=
      EngineAction.executeDDL ("DROP VIEW IF EXISTS " ++ resolveViewName)
    if ¬ env.setupAcksOk then
      (Except.error "failed to setup alert acknowledgments stream",
       [EngineAction.setupMutableAlertAcksStream,
        persistFailed "Failed to setup alert acknowledgments stream"])
    else
      let acts1 := [EngineAction.setupMutableAlertAcksStream]
      if useDedicatedStream && !env.ensureMutableOk then
        (Except.error "failed to ensure dedicated mutable alert acks stream",
         acts1 ++ [EngineAction.ensureMutableStream targetAlertStreamName,
                   persistFailed "Failed to ensure dedicated mutable alert acks stream"])
      else
        let acts2 := acts1 ++
          (if useDedicatedStream then
            [EngineAction.ensureMutableStream targetAlertStreamName]
           else [])
        let dropViews := [plainViewName, materializedViewName] ++
          (if rule.ResolveQuery ≠ "" then
            [resolveViewName, resolveMaterializedViewName]
           else [])
        let acts3 := acts2 ++ dropViews.flatMap (fun viewName =>
          EngineAction.executeDDL ("DROP VIEW IF EXISTS " ++ viewName) ::
          (if env.dropViewOk viewName then []
           else [EngineAction.deleteMaterializedView viewName]))
        let acts4 := acts3 ++
          [EngineAction.executeDDL (GetRulePlainViewQuery rule.ID rule.Query)]
        if ¬ env.createPlainViewOk then
          (Except.error "failed to create plain view",
           acts4 ++ [persistFailed "Failed to create plain view"])
        else
          let resolveViewQuery :=
            "CREATE VIEW " ++ resolveViewName ++ " AS " ++ rule.ResolveQuery
          if rule.ResolveQuery ≠ "" ∧ ¬ env.createResolveViewOk then
            (Except.error "failed to create resolve plain view",
             acts4 ++ [EngineAction.executeDDL resolveViewQuery,
                       persistFailed "Failed to create resolve plain view",
                       dropPlainAct])
          else
            let acts5 := acts4 ++
              (if rule.ResolveQuery ≠ "" then
                [EngineAction.executeDDL resolveViewQuery]
               else [])
            let acts6 := acts5 ++
              [EngineAction.executeQuery ("DESCRIBE " ++ plainViewName)]
            match env.describeCols with
            | none =>
                (Except.error "failed to get view columns",
                 acts6 ++ [persistFailed "Failed to get view columns", dropPlainAct] ++
                 (if rule.ResolveQuery ≠ "" then [dropResolveAct] else []))
            | some columnResults =>
                let resolution :=
                  resolveEntityIdColumn rule.EntityIDColumns columnResults
                let idColumnName := resolution.idColumnName
                let afterEntity :
                    List EngineAction → Option String →
                      Except String Unit × List EngineAction :=
                  fun actsIn entityIdExpression =>
                    let contMV :
                        List EngineAction → Except String Unit × List EngineAction :=
                      fun actsR =>
                        let triggeringDataExpr :=
                          triggeringDataExprOf columnResults idColumnName
                        let actsM := actsR ++
                          [EngineAction.executeDDL
                            (GetRuleThrottledMaterializedViewQuery rule.ID
                              rule.ThrottleMinutes idColumnName triggeringDataExpr
                              targetAlertStreamName)]
                        if ¬ env.createMVOk then
                          (Except.error "failed to create throttled materialized view",
                           actsM ++ [persistFailed "Failed to create materialized view"])
                        else
                          let runningRule :=
                            { rule with
                              Status := RuleStatusRunning
                              LastError := ""
                              UpdatedAt := now
                              DedicatedAlertAcksStream := some useDedicatedStream
                              AlertAcksStreamName :=
                                if useDedicatedStream && (rule.AlertAcksStreamName == "") then
                                  targetAlertStreamName
                                else rule.AlertAcksStreamName }
                          let actsP := actsM ++
                            [EngineAction.insertIntoStream RuleStreamName
                              persistRuleColumns (persistRuleValues runningRule true)]
                          if ¬ env.persistRunningOk then
                            (Except.error "failed to update rule status", actsP)
                          else if rule.ResolveQuery ≠ "" then
                            let actsRV := actsP ++
                              [EngineAction.executeDDL resolveViewQuery]
                            if ¬ env.createResolveView2Ok then
                              (Except.error "failed to create resolve plain view",
                               actsRV ++ [persistFailedWith runningRule
                                 "Failed to create resolve plain view"])
                            else
                              let actsRM := actsRV ++
                                [EngineAction.executeDDL
                                  (GetRuleResolveViewQuery rule.ID idColumnName
                                    targetAlertStreamName)]
                              if ¬ env.createResolveMVOk then
                                (Except.error "failed to create resolve materialized view",
                                 actsRM ++ [persistFailedWith runningRule
                                   "Failed to create resolve materialized view"])
                              else (Except.ok (), actsRM)
                          else (Except.ok (), actsP)
                    if rule.ResolveQuery ≠ "" then
                      let actsA := actsIn ++
                        (match entityIdExpression with
                         | some expr =>
                            [dropResolveAct,
                             EngineAction.executeDDL
                               ("CREATE VIEW " ++ resolveViewName ++ " AS SELECT *, " ++
                                 expr ++ " AS entity_id FROM (" ++ rule.ResolveQuery ++ ")")]
                         | none => [])
                      if entityIdExpression.isSome ∧ ¬ env.createModifiedResolveOk then
                        (Except.error "failed to create modified resolve view",
                         actsA ++ [persistFailed "Failed to create modified resolve view",
                                   dropPlainAct])
                      else
                        let actsB := actsA ++
                          [EngineAction.executeQuery ("DESCRIBE " ++ resolveViewName)]
                        match env.describeResolveCols with
                        | none =>
                            (Except.error "failed to get resolve view columns",
                             actsB ++ [persistFailed "Failed to get resolve view columns",
                                       dropPlainAct, dropResolveAct])
                        | some resolveColumnResults =>
                            if resolveColumnResults.all
                                (fun column => column.name ≠ idColumnName) then
                              let errorMsg :=
                                "Entity ID column '" ++ idColumnName ++
                                "' not found in resolveQuery results. The resolveQuery must return the same entity_id column as the main query."
                              (Except.error errorMsg,
                               actsB ++ [persistFailed errorMsg, dropPlainAct,
                                         dropResolveAct])
                            else contMV actsB
                    else contMV actsIn
                match resolution with
                | EntityIdResolution.direct _ => afterEntity acts6 none
                | EntityIdResolution.concatenated foundColumns =>
                    let expr := entityIdConcatExpression foundColumns
                    let acts7 := acts6 ++
                      [dropPlainAct,
                       EngineAction.executeDDL
                         ("CREATE VIEW " ++ plainViewName ++ " AS SELECT *, " ++ expr ++
                           " AS entity_id FROM (" ++ rule.Query ++ ")")]
                    if ¬ env.createModifiedViewOk then
                      (Except.error "failed to create modified plain view with concatenation",
                       acts7 ++
                       [persistFailed "Failed to create modified plain view with concatenation"] ++
                       (if rule.ResolveQuery ≠ "" then [dropResolveAct] else []))
                    else afterEntity acts7 (some expr)
                | EntityIdResolution.hashed =>
                    let acts7 := acts6 ++
                      [dropPlainAct,
                       EngineAction.executeDDL
                         ("CREATE VIEW " ++ plainViewName ++ " AS SELECT *, " ++
                           md5EntityIdExpression ++ " AS entity_id FROM (" ++
                           rule.Query ++ ")")]
                    if ¬ env.createModifiedViewOk then
                      (Except.error "failed to create modified plain view",
                       acts7 ++ [persistFailed "Failed to create modified plain view"] ++
                       (if rule.ResolveQuery ≠ "" then [dropResolveAct] else []))
                    else afterEntity acts7 (some md5EntityIdExpression)

/-- All-success engine environment for witnesses. -/
def happyEnv : StartEnv :=
  { setupAcksOk := true, ensureMutableOk := true, dropViewOk := fun _ => true,
    createPlainViewOk := true, createResolveViewOk := true,
    describeCols := some [{ name := "device_id", type := "string" }],
    createModifiedViewOk := true, createModifiedResolveOk := true,
    describeResolveCols := some [{ name := "device_id", type := "string" }],
    createMVOk := true, persistRunningOk := true, createResolveView2Ok := true,
    createResolveMVOk := true }

/-- Concrete running rule for the C7 witness. -/
def c7Rule : Rule :=
  { ID := "cd-2", Name := "r", Description := "", Query := "SELECT 1",
    ResolveQuery := "", Status := "running", Severity := "warning",
    ThrottleMinutes := 5, EntityIDColumns := "device_id", CreatedAt := 0,
    UpdatedAt := 0, LastTriggeredAt := none, ResultStream := "rule_cd_2_results",
    ViewName := "rule_cd_2_view", ResolveViewName := "", LastError := "",
    DedicatedAlertAcksStream := some false, AlertAcksStreamName := "" }

/-- Engine result row: ordered column-to-value map. -/
abbrev Row := List (String × Value)

/-- Go getString (rule_service.go lines 255-260): the value when it is a
string, empty string otherwise (also when the key is absent or null). -/
def getStringV (data : Row) (key : String) : String :=
  match (data.find? (fun p => p.1 == key)).map Prod.snd with
  | some (Value.str s) => s
  | _ => ""

/-- Go getInt (rule_service.go lines 262-275): integer kinds pass through,
everything else maps to 0. -/
def getIntV (data : Row) (key : String) : Int :=
  match (data.find? (fun p => p.1 == key)).map Prod.snd with
  | some (Value.int n) => n
  | _ => 0

/-- Go getBool (rule_service.go lines 1762-1767). -/
def getBoolV (data : Row) (key : String) : Bool :=
  match (data.find? (fun p => p.1 == key)).map Prod.snd with
  | some (Value.bool b) => b
  | _ => false

/-- Time getter of mapToRule (created_at / updated_at, lines 239-244):
missing or non-time values become the zero time. -/
def getTimeV (data : Row) (key : String) : Nat :=
  match (data.find? (fun p => p.1 == key)).map Prod.snd with
  | some (Value.time t) => t
  | _ => 0

/-- Optional-time getter of mapToRule (last_triggered_at, lines 245-249). -/
def getTimeOptV (data : Row) (key : String) : Option Nat :=
  match (data.find? (fun p => p.1 == key)).map Prod.snd with
  | some (Value.time t) => some t
  | _ => none

/-- Optional-bool getter of mapToRule (dedicated_alert_acks_stream,
lines 224-233): the pointer is set only for a present, non-null boolean. -/
def getBoolOptV (data : Row) (key : String) : Option Bool :=
  match (data.find? (fun p => p.1 == key)).map Prod.snd with
  | some (Value.bool b) => some b
  | _ => none

/-- mapToRule (rule_service.go lines 202-252): builds the Rule record from a
result row with the permissive getters; absent columns become zero
values. -/
def mapToRule (data : Row) : Rule :=
  { ID := getStringV data "id"
    Name := getStringV data "name"
    Description := getStringV data "description"
    Query := getStringV data "query"
    ResolveQuery := getStringV data "resolve_query"
    Status := getStringV data "status"
    Severity := getStringV data "severity"
    ThrottleMinutes := getIntV data "throttle_minutes"
    EntityIDColumns := getStringV data "entity_id_columns"
    CreatedAt := getTimeV data "created_at"
    UpdatedAt := getTimeV data "updated_at"
    LastTriggeredAt := getTimeOptV data "last_triggered_at"
    ResultStream := getStringV data "result_stream"
    ViewName := getStringV data "view_name"
    ResolveViewName := getStringV data "resolve_view_name"
    LastError := getStringV data "last_error"
    DedicatedAlertAcksStream := getBoolOptV data "dedicated_alert_acks_stream"
    AlertAcksStreamName := getStringV data "alert_acks_stream_name" }

/-- SQL text of the GetRules query (rule_service.go lines 175-185); its
select list has no resolve_query and no resolve_view_name column. -/
def getRulesQuerySQL : String :=
  "\n\t\tSELECT id, name, description, query, status, severity, \n\t\t\t   throttle_minutes, entity_id_columns, created_at, updated_at, last_triggered_at,\n\t\t\t   result_stream, view_name, last_error,\n\t\t\t   dedicated_alert_acks_stream, alert_acks_stream_name\n\t\tFROM (\n\t\t\tSELECT *, row_number() OVER (PARTITION BY id ORDER BY _tp_time DESC) as row_num\n\t\t\tFROM table(" ++
  RuleStreamName ++ ")\n\t\t\tWHERE active = true\n\t\t) WHERE row_num = 1\n\t"

/-- SQL text of the GetRule query (rule_service.go lines 282-292); unlike
GetRules it selects resolve_query and resolve_view_name. -/
def getRuleQuerySQL (id : String) : String :=
  "\n\t\tSELECT id, name, description, query, resolve_query, status, severity, \n\t\t\t   throttle_minutes, entity_id_columns, created_at, updated_at, last_triggered_at,\n\t\t\t   result_stream, view_name, resolve_view_name, last_error,\n\t\t\t   dedicated_alert_acks_stream, alert_acks_stream_name\n\t\tFROM (\n\t\t\tSELECT *, row_number() OVER (PARTITION BY id ORDER BY _tp_time DESC) as row_num\n\t\t\tFROM table(" ++
  RuleStreamName ++ ")\n\t\t\tWHERE id = '" ++ id ++
  "' AND active = true\n\t\t) WHERE row_num = 1\n\t"

/-- Columns the GetRules query selects. -/
def getRulesSelectColumns : List String :=
  ["id", "name", "description", "query", "status", "severity",
   "throttle_minutes", "entity_id_columns", "created_at", "updated_at",
   "last_triggered_at", "result_stream", "view_name", "last_error",
   "dedicated_alert_acks_stream", "alert_acks_stream_name"]

/-- Columns the GetRule query selects. -/
def getRuleSelectColumns : List String :=
  ["id", "name", "description", "query", "resolve_query", "status", "severity",
   "throttle_minutes", "entity_id_columns", "created_at", "updated_at",
   "last_triggered_at", "result_stream", "view_name", "resolve_view_name",
   "last_error", "dedicated_alert_acks_stream", "alert_acks_stream_name"]

/-- Projection of a stored row to the columns a query selects. -/
def projectRow (cols : List String) : Row → Row
  | [] => []
  | p :: rest =>
      if cols.contains p.1 then p :: projectRow cols rest else projectRow cols rest

/-- GetRules (rule_service.go lines 171-199) over a snapshot of the rules
catalog: the window subquery keeping the latest active row per id is
modelled by the snapshot holding one row per id; the active filter and the
select-list projection are explicit; every projected row passes through
mapToRule. -/
def getRulesModel (snapshot : List Row) : List Rule :=
  (snapshot.filter (fun row => getBoolV row "active")).map
    (fun row => mapToRule (projectRow getRulesSelectColumns row))

/-- The stored row the GetRule query returns for an id, when any. -/
def ruleRowFor (snapshot : List Row) (id : String) : Option Row :=
  (snapshot.filter (fun row => getStringV row "id" == id && getBoolV row "active")).head?

/-- GetRule (rule_service.go lines 278-304) over the same snapshot: filters
by id and active, errors when nothing matches, otherwise maps the first row
projected to the full select list. -/
def getRuleModel (snapshot : List Row) (id : String) : Except String Rule :=
  match snapshot.filter (fun row => getStringV row "id" == id && getBoolV row "active") with
  | [] => Except.error ("rule with ID " ++ id ++ " not found")
  | row :: _ => Except.ok (mapToRule (projectRow getRuleSelectColumns row))

/-- Restart recovery resumeRunningRules (rule_service.go lines 152-168):
lists rules via GetRules and, for each with status running, invokes
StartRule with the rule id only; StartRule then re-reads the record itself
via GetRule (line 627).  This function returns the records StartRule
actually operates on. -/
def resumeStartInputs (snapshot : List Row) : List Rule :=
  ((getRulesModel snapshot).filter
    (fun rule => rule.Status == RuleStatusRunning)).filterMap
    (fun rule => (getRuleModel snapshot rule.ID).toOption)

/-- Stored catalog row of a running rule with a resolver, for C9. -/
def row9 : Row :=
  [("id", Value.str "r9"), ("name", Value.str "nine"),
   ("description", Value.str ""), ("query", Value.str "SELECT 1"),
   ("resolve_query", Value.str "SELECT 2"), ("status", Value.str "running"),
   ("severity", Value.str "info"), ("throttle_minutes", Value.int 1),
   ("entity_id_columns", Value.str ""), ("created_at", Value.time 0),
   ("updated_at", Value.time 0), ("last_triggered_at", Value.null),
   ("result_stream", Value.str "rule_r9_results"),
   ("view_name", Value.str "rule_r9_view"),
   ("resolve_view_name", Value.str "rule_r9_resolve_view"),
   ("last_error", Value.str ""), ("dedicated_alert_acks_stream", Value.bool false),
   ("alert_acks_stream_name", Value.null), ("_tp_time", Value.time 3),
   ("active", Value.bool true)]

/-- SQL of the single-alert query (rule_service.go lines 1462-1476). -/
def getAlertQuerySQL (alertID ruleID entityID : String) : String :=
  "\n\t\tSELECT \n\t\t\t'" ++ alertID ++
  "' as id,\n\t\t\trule_id,\n\t\t\tentity_id,\n\t\t\tstate,\n\t\t\tcreated_at,\n\t\t\tupdated_at,\n\t\t\tupdated_by,\n\t\t\tcomment\n\t\tFROM table(" ++
  AlertAcksMutableStream ++ ") \n\t\tWHERE rule_id = '" ++ ruleID ++
  "' AND entity_id = '" ++ entityID ++
  "'\n\t\tORDER BY updated_at DESC \n\t\tLIMIT 1\n\t"

/-- GetAlert (rule_service.go lines 1443-1526) modelled over the acks table:
a composite id that does not split into exactly two parts on colons is
rejected before any engine call; otherwise the rule lookup query and the
alert query run (the display mapping of the returned row only fills
presentation fields and is reduced here to found / not found). -/
def getAlertModel (acks : List AckRow) (alertID : String) :
    Except String Unit × List EngineAction :=
  let parts := goSplit alertID ':'
  if parts.length ≠ 2 then
    (Except.error "invalid alert ID format, expected 'rule_id:entity_id'", [])
  else
    let ruleID := (parts[0]?).getD ""
    let entityID := (parts[1]?).getD ""
    let acts := [EngineAction.executeQuery (getRuleQuerySQL ruleID),
                 EngineAction.executeQuery (getAlertQuerySQL alertID ruleID entityID)]
    if (acks.filter (fun row =>
        row.rule_id == ruleID && row.entity_id == entityID)).length = 0 then
      (Except.error ("alert " ++ alertID ++ " not found"), acts)
    else (Except.ok (), acts)

theorem throttleConditionGo_eq_claim (t : Int) :
    throttleConditionGo t = throttleConditionClaim t := by
  unfold throttleConditionGo throttleConditionClaim AlertStateAcknowledged
  by_cases h : t < 0
  · rw [if_neg (not_le.mpr h), if_pos h]
  · rw [if_pos (not_lt.mp h), if_neg h]
    have hlit :
        ("(\n\t\t\tack_state = '' OR\n\t\t\tack_state = '" : String) ++ "acknowledged" ++
          "' OR\n\t\t\t(now() - " =
        "(\n\t\t\tack_state = '' OR\n\t\t\tack_state = 'acknowledged' OR\n\t\t\t(now() - " := by
      decide
    rw [hlit]

/-- C1: the throttled MV DDL left-joins the plain view rule_sid_view against
the target acks stream, filters with the throttle condition of the claim
(ack_state = '' when throttleMinutes is negative, otherwise the
empty/acknowledged/expired disjunction), and emits
coalesce(fe.ack_created_at, now()) as created_at, carrying the prior
episode's created_at forward across throttled retriggers. -/
theorem C1_throttled_mv_query (ruleID : String) (ThrottleMinutes : Int)
    (idColumnName triggeringDataExpr targetAlertStream : String) :
    SubstrOf
      ("FROM `" ++ ("rule_" ++ GetFormattedRuleID ruleID ++ "_view") ++
        "` AS view\n    LEFT JOIN `" ++ targetAlertStream ++ "` AS ack ON view.`" ++
        idColumnName ++ "` = ack.entity_id")
      (GetRuleThrottledMaterializedViewQuery ruleID ThrottleMinutes idColumnName
        triggeringDataExpr targetAlertStream) ∧
    SubstrOf
      ("WHERE (ack.rule_id = '') OR (ack.rule_id = '" ++ ruleID ++ "' AND (" ++
        throttleConditionClaim ThrottleMinutes ++ "))")
      (GetRuleThrottledMaterializedViewQuery ruleID ThrottleMinutes idColumnName
        triggeringDataExpr targetAlertStream) ∧
    SubstrOf
      "coalesce(fe.ack_created_at, now()) AS created_at,\n    now() AS updated_at"
      (GetRuleThrottledMaterializedViewQuery ruleID ThrottleMinutes idColumnName
        triggeringDataExpr targetAlertStream) := by
  unfold GetRuleThrottledMaterializedViewQuery SubstrOf
  rw [← throttleConditionGo_eq_claim]
  refine ⟨⟨"\nCREATE MATERIALIZED VIEW `" ++ ("rule_" ++ GetFormattedRuleID ruleID ++ "_mv") ++
      "` INTO `" ++ targetAlertStream ++
      "` AS\nWITH filtered_events AS (\n    SELECT\n        view.*,\n        ack.state AS ack_state,\n        ack.created_at AS ack_created_at\n    ",
      "\n    " ++
      ("WHERE (ack.rule_id = '') OR (ack.rule_id = '" ++ ruleID ++ "' AND (" ++
        throttleConditionGo ThrottleMinutes ++ "))") ++
      ("\n)\nSELECT\n    '" ++ ruleID ++ "' AS rule_id,\n    fe.`" ++ idColumnName ++
        "` AS entity_id,\n    '" ++ AlertStateActive ++ "' AS state,\n    ") ++
      "coalesce(fe.ack_created_at, now()) AS created_at,\n    now() AS updated_at" ++
      (",\n    '' AS updated_by,\n    " ++ triggeringDataExpr ++
        " AS comment\nFROM filtered_events AS fe"), ?_⟩,
    ⟨("\nCREATE MATERIALIZED VIEW `" ++ ("rule_" ++ GetFormattedRuleID ruleID ++ "_mv") ++
      "` INTO `" ++ targetAlertStream ++
      "` AS\nWITH filtered_events AS (\n    SELECT\n        view.*,\n        ack.state AS ack_state,\n        ack.created_at AS ack_created_at\n    ") ++
      ("FROM `" ++ ("rule_" ++ GetFormattedRuleID ruleID ++ "_view") ++
        "` AS view\n    LEFT JOIN `" ++ targetAlertStream ++ "` AS ack ON view.`" ++
        idColumnName ++ "` = ack.entity_id") ++
      "\n    ",
      ("\n)\nSELECT\n    '" ++ ruleID ++ "' AS rule_id,\n    fe.`" ++ idColumnName ++
        "` AS entity_id,\n    '" ++ AlertStateActive ++ "' AS state,\n    ") ++
      "coalesce(fe.ack_created_at, now()) AS created_at,\n    now() AS updated_at" ++
      (",\n    '' AS updated_by,\n    " ++ triggeringDataExpr ++
        " AS comment\nFROM filtered_events AS fe"), ?_⟩,
    ⟨("\nCREATE MATERIALIZED VIEW `" ++ ("rule_" ++ GetFormattedRuleID ruleID ++ "_mv") ++
      "` INTO `" ++ targetAlertStream ++
      "` AS\nWITH filtered_events AS (\n    SELECT\n        view.*,\n        ack.state AS ack_state,\n        ack.created_at AS ack_created_at\n    ") ++
      ("FROM `" ++ ("rule_" ++ GetFormattedRuleID ruleID ++ "_view") ++
        "` AS view\n    LEFT JOIN `" ++ targetAlertStream ++ "` AS ack ON view.`" ++
        idColumnName ++ "` = ack.entity_id") ++
      "\n    " ++
      ("WHERE (ack.rule_id = '') OR (ack.rule_id = '" ++ ruleID ++ "' AND (" ++
        throttleConditionGo ThrottleMinutes ++ "))") ++
      ("\n)\nSELECT\n    '" ++ ruleID ++ "' AS rule_id,\n    fe.`" ++ idColumnName ++
        "` AS entity_id,\n    '" ++ AlertStateActive ++ "' AS state,\n    "),
      ",\n    '' AS updated_by,\n    " ++ triggeringDataExpr ++
        " AS comment\nFROM filtered_events AS fe", ?_⟩⟩ <;>
    simp only [String.append_assoc]

/-- C4 counterexample: persisting a rule whose dedicatedAlertAcksStream is
nil with active = false inserts the boolean false into the
dedicated_alert_acks_stream column, not engine null as the claim states. -/
theorem C4_counterexample :
    persistRuleColumns[16]? = some "dedicated_alert_acks_stream" ∧
    (persistRuleValues c4Rule false)[16]? = some (Value.bool false) ∧
    (persistRuleValues c4Rule false)[16]? ≠ some Value.null := by
  decide

/-- C4 amended: persistRule always inserts a boolean into the
dedicated_alert_acks_stream column: the pointed-to value when the flag is
non-nil, and false when it is nil, for active rules and inactive rules
alike (the active = false branch computes a null placeholder, but the
explicit boolean re-typing block makes the inserted value false). -/
theorem C4_persist_dedicated_flag (rule : Rule) (active : Bool) :
    persistRuleColumns[16]? = some "dedicated_alert_acks_stream" ∧
    (persistRuleValues rule active)[16]? =
      some (Value.bool (rule.DedicatedAlertAcksStream.getD false)) := by
  refine ⟨by decide, ?_⟩
  cases h : rule.DedicatedAlertAcksStream <;> cases active <;>
    simp [persistRuleValues, h]

/-- C2: evaluating StopRule on a running rule shows the code never drops the
throttled materialized view rule_ab_1_mv.  Instead it issues a
materialized-view drop of the plain view name rule_ab_1_view, drops the
legacy acks view, then the resolver MV and resolver plain view, and finally
persists status stopped; the claimed first drop of rule_ab_1_mv never
appears in the trace. -/
theorem C2_stop_never_drops_throttled_mv :
    stopRuleActions c2Rule (some []) 7 = Except.ok c2Trace ∧
    EngineAction.deleteMaterializedView "rule_ab_1_mv" ∉ c2Trace ∧
    EngineAction.executeQuery "DROP VIEW IF EXISTS `rule_ab_1_mv`" ∉ c2Trace ∧
    EngineAction.executeDDL "DROP VIEW IF EXISTS rule_ab_1_mv" ∉ c2Trace ∧
    c2Trace[1]? = some (EngineAction.deleteMaterializedView "rule_ab_1_view") := by
  decide

/-- C3 counterexample: with columns (host, entity_id) and no user match, the
code picks host (the first view column whose name is a priority name),
although entity_id is earlier in the claimed priority order. -/
theorem C3_counterexample :
    resolveEntityIdColumn "" c3Cols = EntityIdResolution.direct "host" ∧
    priorityOrderFirst c3Cols = some "entity_id" ∧
    ("host" : String) ≠ "entity_id" := by
  decide

theorem findPriorityIdColumn_find? (cols : List ColumnInfo) (c : ColumnInfo)
    (hfind : cols.find? (fun col => priorityColumns.contains col.name) = some c) :
    findPriorityIdColumn cols = c.name ∧ c.name ≠ "" := by
  induction cols with
  | nil => simp at hfind
  | cons head rest ih =>
      rw [List.find?_cons] at hfind
      cases hh : priorityColumns.contains head.name
      · simp only [hh] at hfind
        have hrec := ih hfind
        have hh2 : head.name ∉ priorityColumns := by simpa using hh
        exact ⟨by simp [findPriorityIdColumn, hh2, hrec.1], hrec.2⟩
      · simp only [hh] at hfind
        have heq : head = c := by simpa using hfind
        subst heq
        have hmem : head.name ∈ priorityColumns := by simpa using hh
        refine ⟨by simp [findPriorityIdColumn, hmem], ?_⟩
        have hmem2 := hmem
        simp only [priorityColumns, List.mem_cons, List.not_mem_nil, or_false] at hmem2
        rcases hmem2 with h | h | h | h | h | h <;> rw [h] <;> decide

/-- C3 amended: when the user-specified entityIdColumns match none of the
view's actual columns, the code scans the view's columns in view-column
order and uses the first whose name is among entity_id, device_id, id,
host, ip, user_id; when several priority names are present, the one
earliest in the view's column order wins (not the one earliest in the
priority list). -/
theorem C3_fallback_first_view_column (entityIDColumns : String)
    (cols : List ColumnInfo) (c : ColumnInfo)
    (hempty : matchedUserColumns (splitTrimColumns entityIDColumns) cols = [])
    (hfind : cols.find? (fun col => priorityColumns.contains col.name) = some c) :
    resolveEntityIdColumn entityIDColumns cols = EntityIdResolution.direct c.name := by
  obtain ⟨h1, h2⟩ := findPriorityIdColumn_find? cols c hfind
  unfold resolveEntityIdColumn
  by_cases he : entityIDColumns = ""
  · simp [he, h1, h2]
  · simp [he, hempty, h1, h2]

/-- C3 witness: the amended fallback theorem applied to a concrete view
whose columns are (temp : float64, device_id : string) with a
non-matching user column list. -/
theorem C3_fallback_witness :
    resolveEntityIdColumn "serial"
      [{ name := "temp", type := "float64" }, { name := "device_id", type := "string" }] =
      EntityIdResolution.direct "device_id" :=
  C3_fallback_first_view_column "serial"
    [{ name := "temp", type := "float64" }, { name := "device_id", type := "string" }]
    { name := "device_id", type := "string" } (by decide) (by decide)

/-- C5 counterexample: stopping a rule that is not running, and updating a
rule that is running, both surface service errors that the HTTP layer
answers with 500, not with the 400 the claim assigns to InvalidRuleState. -/
theorem C5_counterexample :
    stopRuleActions c5StoppedRule (some []) 0 = Except.error "rule is not running" ∧
    stopRuleHandlerStatus (Except.error "rule is not running") = 500 ∧
    (updateRule c5RunningRule c5EmptyReq 0 true).1 =
      Except.error "cannot update rule in running state" ∧
    updateRuleHandlerStatus true (Except.error "cannot update rule in running state") = 500 ∧
    (500 : Nat) ≠ 400 := by
  decide

/-- C5 amended: the HTTP layer performs no error-kind mapping.  Every
service error surfaced through the stop, update, create, delete, start,
acknowledge, list-rules, list-alerts and by-time handlers is answered 500
with the message; every error surfaced through the single-rule,
single-alert and alert-data read handlers is answered 404 regardless of
kind; 400 arises only from request binding failures, the create-validation
check and time-format parsing; and no handler ever answers 409. -/
theorem C5_handler_status_mapping :
    (∀ e : String,
      stopRuleHandlerStatus (Except.error e) = 500 ∧
      updateRuleHandlerStatus true (Except.error e) = 500 ∧
      deleteRuleHandlerStatus (Except.error e) = 500 ∧
      startRuleHandlerStatus (Except.error e) = 500 ∧
      acknowledgeAlertHandlerStatus true (Except.error e) = 500 ∧
      getRulesHandlerStatus (Except.error e) = 500 ∧
      getAlertsHandlerStatus (Except.error e) = 500 ∧
      getAlertsByTimeRangeHandlerStatus true true (Except.error e) = 500 ∧
      getRuleHandlerStatus (Except.error e) = 404 ∧
      getAlertHandlerStatus (Except.error e) = 404 ∧
      getAlertRawDataHandlerStatus (Except.error e) true = 404) ∧
    (∀ req : CreateRuleRequest, ∀ serviceOk : Bool,
      createRuleHandler true req serviceOk =
        (if req.Name = "" ∨ req.Query = "" ∨ req.SourceStream = "" then (400, false)
         else if serviceOk then (201, true) else (500, true))) ∧
    (∀ r : Except String Unit,
      stopRuleHandlerStatus r ≠ 400 ∧ deleteRuleHandlerStatus r ≠ 400 ∧
      startRuleHandlerStatus r ≠ 400 ∧ getAlertsHandlerStatus r ≠ 400 ∧
      getAlertHandlerStatus r ≠ 400 ∧
      acknowledgeAlertHandlerStatus true r ≠ 400 ∧
      getAlertsByTimeRangeHandlerStatus true true r ≠ 400) ∧
    (∀ r : Except String (List Rule), getRulesHandlerStatus r ≠ 400) ∧
    (∀ r : Except String Rule,
      getRuleHandlerStatus r ≠ 400 ∧ updateRuleHandlerStatus true r ≠ 400) ∧
    (∀ (r : Except String Unit) (jsonOk : Bool),
      getAlertRawDataHandlerStatus r jsonOk ≠ 400) ∧
    (∀ r : Except String Unit,
      stopRuleHandlerStatus r ≠ 409 ∧ deleteRuleHandlerStatus r ≠ 409 ∧
      startRuleHandlerStatus r ≠ 409 ∧ getAlertsHandlerStatus r ≠ 409 ∧
      getAlertHandlerStatus r ≠ 409) ∧
    (∀ (b : Bool) (r : Except String Rule), updateRuleHandlerStatus b r ≠ 409) ∧
    (∀ (b : Bool) (r : Except String Unit),
      acknowledgeAlertHandlerStatus b r ≠ 409) ∧
    (∀ r : Except String (List Rule), getRulesHandlerStatus r ≠ 409) ∧
    (∀ r : Except String Rule, getRuleHandlerStatus r ≠ 409) ∧
    (∀ (b : Bool) (req : CreateRuleRequest) (serviceOk : Bool),
      (createRuleHandler b req serviceOk).1 ≠ 409) ∧
    (∀ (s1 s2 : Bool) (r : Except String Unit),
      getAlertsByTimeRangeHandlerStatus s1 s2 r ≠ 409) ∧
    (∀ (r : Except String Unit) (jsonOk : Bool),
      getAlertRawDataHandlerStatus r jsonOk ≠ 409) := by
  refine ⟨fun e => ⟨rfl, rfl, rfl, rfl, rfl, rfl, rfl, rfl, rfl, rfl, rfl⟩,
    ?_, ?_, ?_, ?_, ?_, ?_, ?_, ?_, ?_, ?_, ?_, ?_, ?_⟩
  · intro req serviceOk
    by_cases hv : req.Name = "" ∨ req.Query = "" ∨ req.SourceStream = "" <;>
      cases serviceOk <;> simp [createRuleHandler, hv]
  · intro r
    cases r <;>
      simp [stopRuleHandlerStatus, deleteRuleHandlerStatus, startRuleHandlerStatus,
        getAlertsHandlerStatus, getAlertHandlerStatus,
        acknowledgeAlertHandlerStatus, getAlertsByTimeRangeHandlerStatus]
  · intro r; cases r <;> simp [getRulesHandlerStatus]
  · intro r; cases r <;> simp [getRuleHandlerStatus, updateRuleHandlerStatus]
  · intro r jsonOk; cases r <;> cases jsonOk <;> simp [getAlertRawDataHandlerStatus]
  · intro r
    cases r <;>
      simp [stopRuleHandlerStatus, deleteRuleHandlerStatus, startRuleHandlerStatus,
        getAlertsHandlerStatus, getAlertHandlerStatus]
  · intro b r; cases b <;> cases r <;> simp [updateRuleHandlerStatus]
  · intro b r; cases b <;> cases r <;> simp [acknowledgeAlertHandlerStatus]
  · intro r; cases r <;> simp [getRulesHandlerStatus]
  · intro r; cases r <;> simp [getRuleHandlerStatus]
  · intro b req serviceOk
    cases b <;>
      (try by_cases hv : req.Name = "" ∨ req.Query = "" ∨ req.SourceStream = "") <;>
      cases serviceOk <;> simp [createRuleHandler] <;> simp [hv]
  · intro s1 s2 r; cases s1 <;> cases s2 <;> cases r <;>
      simp [getAlertsByTimeRangeHandlerStatus]
  · intro r jsonOk; cases r <;> cases jsonOk <;> simp [getAlertRawDataHandlerStatus]

/-- C6 counterexample: a request with non-empty name and query and a valid
severity but empty source_stream passes the claim's validation yet is
rejected 400 without reaching creation; and a request with a severity
outside info/warning/critical but non-empty source_stream fails the
claim's validation yet is accepted 201. -/
theorem C6_counterexample :
    createRuleHandler true c6Req true = (400, false) ∧
    c6Req.Name ≠ "" ∧ c6Req.Query ≠ "" ∧ c6Req.Severity = "critical" ∧
    createRuleHandler true { c6Req with SourceStream := "temps", Severity := "bogus" } true =
      (201, true) ∧
    ¬({ c6Req with SourceStream := "temps", Severity := "bogus" } :
        CreateRuleRequest).Severity ∈ ["info", "warning", "critical"] := by
  decide

/-- C6 amended: rule creation validates exactly name, query and
source_stream non-empty; a request failing that is rejected 400 before the
service (and hence any persist) runs, a request passing it reaches creation
and is answered 201 on service success, and the severity field never
influences the handler. -/
theorem C6_create_validation (req : CreateRuleRequest) (serviceOk : Bool) :
    ((req.Name = "" ∨ req.Query = "" ∨ req.SourceStream = "") →
      createRuleHandler true req serviceOk = (400, false)) ∧
    (req.Name ≠ "" → req.Query ≠ "" → req.SourceStream ≠ "" →
      createRuleHandler true req true = (201, true)) ∧
    (∀ s1 s2 : String,
      createRuleHandler true { req with Severity := s1 } serviceOk =
        createRuleHandler true { req with Severity := s2 } serviceOk) := by
  refine ⟨fun h1 => by simp [createRuleHandler, h1], ?_, ?_⟩
  · intro h1 h2 h3
    simp [createRuleHandler, h1, h2, h3]
  · intro s1 s2
    simp [createRuleHandler]

/-- C6 witness for the amended theorem at concrete requests. -/
theorem C6_witness :
    createRuleHandler true c6Req true = (400, false) ∧
    createRuleHandler true { c6Req with SourceStream := "temps" } true = (201, true) :=
  ⟨(C6_create_validation c6Req true).1 (Or.inr (Or.inr rfl)),
   (C6_create_validation { c6Req with SourceStream := "temps" } true).2.1
      (by decide) (by decide) (by decide)⟩

/-- C8 counterexample: the well-split alert id consisting of an empty rule
part and entity e is acknowledged successfully although no active row for
the pair (empty rule id, e) exists: the empty rule id component is dropped
from the existence filter, so the active row of a different rule r2
satisfies the check, and a row keyed (empty, e) is inserted. -/
theorem C8_counterexample :
    (goSplit ":e" ':').length = 2 ∧
    c8Table.all (fun row => row.rule_id ≠ "") ∧
    (acknowledgeAlert c8Table ":e" "op" 5).1 =
      Except.ok
        [{ rule_id := "r2", entity_id := "e", state := "active", created_at := 1,
           updated_at := 1, updated_by := "", comment := "" },
         { rule_id := "", entity_id := "e", state := "acknowledged", created_at := 5,
           updated_at := 5, updated_by := "op", comment := "Acknowledged via API" }] := by
  decide

/-- C8 amended: with both id components non-empty, acknowledging requires an
active row for exactly that (rule_id, entity_id): without one the call
errors after the existence query and performs no write; with one it inserts
(rule_id, entity_id, acknowledged, now, now, user, comment), and the
primary-key upsert leaves that inserted row as the only row of the key. -/
theorem C8_acknowledge_requires_active (table : List AckRow)
    (ruleID entityID user comment : String) (now : Nat)
    (hr : ruleID ≠ "") (he : entityID ≠ "") :
    ((∀ row ∈ table, ¬(row.rule_id = ruleID ∧ row.entity_id = entityID ∧
        row.state = AlertStateActive)) →
      acknowledgeDevice table ruleID entityID user comment now =
        (Except.error ("no active alerts found for entity " ++ entityID ++
           " with rule " ++ ruleID),
         [EngineAction.executeQuery (getActiveAlertAcksSQL ruleID entityID)])) ∧
    (∀ row ∈ table, row.rule_id = ruleID → row.entity_id = entityID →
      row.state = AlertStateActive →
      acknowledgeDevice table ruleID entityID user comment now =
        (Except.ok (upsertAck table
           { rule_id := ruleID, entity_id := entityID,
             state := AlertStateAcknowledged, created_at := now, updated_at := now,
             updated_by := user, comment := comment }),
         [EngineAction.executeQuery (getActiveAlertAcksSQL ruleID entityID),
          EngineAction.executeQuery (acknowledgeInsertSQL ruleID entityID user comment)])) ∧
    (∀ (t : List AckRow) (newRow r : AckRow), r ∈ upsertAck t newRow →
      r.rule_id = newRow.rule_id → r.entity_id = newRow.entity_id → r = newRow) := by
  refine ⟨?_, ?_, ?_⟩
  · intro hall
    have hfilter : getActiveAlertAcks table ruleID entityID = [] := by
      rw [getActiveAlertAcks, List.filter_eq_nil_iff]
      intro row hrow hpred
      simp only [Bool.and_eq_true, Bool.or_eq_true, beq_iff_eq] at hpred
      rcases hpred with ⟨h1, h2, h3⟩
      exact hall row hrow ⟨h1.resolve_left hr, h2.resolve_left he, h3⟩
    simp [acknowledgeDevice, hfilter]
  · intro row hrow h1 h2 h3
    have hmem : row ∈ getActiveAlertAcks table ruleID entityID := by
      rw [getActiveAlertAcks]
      exact List.mem_filter.mpr ⟨hrow, by simp [h1, h2, h3]⟩
    have hne : (getActiveAlertAcks table ruleID entityID).length ≠ 0 := by
      simpa [List.length_eq_zero] using List.ne_nil_of_mem hmem
    simp [acknowledgeDevice, hne]
  · intro t newRow r hmem hk1 hk2
    rcases List.mem_append.mp hmem with hin | hin
    · have := (List.mem_filter.mp hin).2
      simp [hk1, hk2] at this
    · simpa using hin

/-- C8 witness: the amended theorem applied to a concrete table with an
active row for (r2, e): acknowledging succeeds and replaces the row. -/
theorem C8_witness :
    acknowledgeDevice c8Table "r2" "e" "op" "c" 5 =
      (Except.ok
        [{ rule_id := "r2", entity_id := "e", state := "acknowledged",
           created_at := 5, updated_at := 5, updated_by := "op", comment := "c" }],
       [EngineAction.executeQuery (getActiveAlertAcksSQL "r2" "e"),
        EngineAction.executeQuery (acknowledgeInsertSQL "r2" "e" "op" "c")]) := by
  have h := (C8_acknowledge_requires_active c8Table "r2" "e" "op" "c" 5
    (by decide) (by decide)).2.1
    { rule_id := "r2", entity_id := "e", state := "active", created_at := 1,
      updated_at := 1, updated_by := "", comment := "" }
    (by decide) rfl rfl rfl
  rw [h]
  decide

/-- C7: StartRule on a rule whose status is running returns success at once,
issuing no engine action at all: no DDL and no persist. -/
theorem C7_start_idempotent_on_running (rule : Rule) (env : StartEnv) (now : Nat)
    (h : rule.Status = RuleStatusRunning) :
    startRule rule env now = (Except.ok (), []) := by
  simp [startRule, h]

/-- C7 witness: the idempotence theorem applied to a concrete running rule
and the all-success environment. -/
theorem C7_witness : startRule c7Rule happyEnv 3 = (Except.ok (), []) :=
  C7_start_idempotent_on_running c7Rule happyEnv 3 rfl

/-- C9 counterexample: GetRules indeed returns the stored resolver rule with
empty ResolveQuery and ResolveViewName (that much of the claim holds, and
the two query texts differ exactly there); but restart recovery does not
re-start the rule as if it had no resolveQuery: StartRule receives only the
id, re-reads the record through GetRule with the full select list, so the
record it operates on carries resolve_query SELECT 2 - and being in status
running, StartRule no-ops instead of rebuilding anything. -/
theorem C9_counterexample :
    (getRulesModel [row9]).map (fun r => r.ResolveQuery) = [""] ∧
    (getRulesModel [row9]).map (fun r => r.ResolveViewName) = [""] ∧
    getStringV row9 "resolve_query" = "SELECT 2" ∧
    (resumeStartInputs [row9]).map (fun r => r.ResolveQuery) = ["SELECT 2"] ∧
    startRule (mapToRule (projectRow getRuleSelectColumns row9)) happyEnv 0 =
      (Except.ok (), []) ∧
    strContainsSub getRulesQuerySQL "resolve_query" = false ∧
    strContainsSub (getRuleQuerySQL "r9") "resolve_query" = true := by
  decide

theorem find?_projectRow_of_not_contains (cols : List String) (key : String)
    (row : Row) (h : cols.contains key = false) :
    (projectRow cols row).find? (fun p => p.1 == key) = none := by
  induction row with
  | nil => rfl
  | cons p rest ih =>
      simp only [projectRow]
      by_cases hp : cols.contains p.1 = true
      · rw [if_pos hp]
        have hbe : (p.1 == key) = false := by
          cases hbe2 : p.1 == key
          · rfl
          · exfalso
            have hpk : p.1 = key := by simpa using hbe2
            rw [hpk, h] at hp
            cases hp
        simp only [List.find?_cons, hbe]
        exact ih
      · rw [if_neg hp]
        exact ih

theorem find?_projectRow_of_contains (cols : List String) (key : String)
    (row : Row) (h : cols.contains key = true) :
    (projectRow cols row).find? (fun p => p.1 == key) =
      row.find? (fun p => p.1 == key) := by
  induction row with
  | nil => rfl
  | cons p rest ih =>
      simp only [projectRow]
      cases hbe : p.1 == key
      · by_cases hp : cols.contains p.1 = true
        · rw [if_pos hp]
          simp only [List.find?_cons, hbe]
          exact ih
        · rw [if_neg hp]
          simp only [List.find?_cons, hbe]
          exact ih
      · have hpk : p.1 = key := by simpa using hbe
        have hp : cols.contains p.1 = true := by rw [hpk]; exact h
        rw [if_pos hp]
        simp only [List.find?_cons, hbe]

theorem getStringV_projectRow_of_not_contains (cols : List String) (key : String)
    (row : Row) (h : cols.contains key = false) :
    getStringV (projectRow cols row) key = "" := by
  simp [getStringV, find?_projectRow_of_not_contains cols key row h]

theorem getStringV_projectRow_of_contains (cols : List String) (key : String)
    (row : Row) (h : cols.contains key = true) :
    getStringV (projectRow cols row) key = getStringV row key := by
  simp [getStringV, find?_projectRow_of_contains cols key row h]

/-- C9 amended: every rule GetRules returns has empty ResolveQuery and
ResolveViewName, because the list query omits those columns; GetRule, whose
select list contains them, returns the stored values - and restart
recovery, which hands StartRule only the rule id, therefore operates on
records carrying the stored resolver fields, not on the stripped GetRules
records. -/
theorem C9_list_loses_resolver_fields (snapshot : List Row) (id : String) (r : Rule) :
    (∀ q ∈ getRulesModel snapshot, q.ResolveQuery = "" ∧ q.ResolveViewName = "") ∧
    (getRuleModel snapshot id = Except.ok r →
      r.ResolveQuery = getStringV ((ruleRowFor snapshot id).getD []) "resolve_query" ∧
      r.ResolveViewName =
        getStringV ((ruleRowFor snapshot id).getD []) "resolve_view_name") := by
  constructor
  · intro q hq
    rcases List.mem_map.mp hq with ⟨row, _, rfl⟩
    constructor
    · exact getStringV_projectRow_of_not_contains getRulesSelectColumns
        "resolve_query" row (by decide)
    · exact getStringV_projectRow_of_not_contains getRulesSelectColumns
        "resolve_view_name" row (by decide)
  · intro hok
    unfold getRuleModel at hok
    unfold ruleRowFor
    cases hfilter :
        snapshot.filter (fun row => getStringV row "id" == id && getBoolV row "active") with
    | nil => rw [hfilter] at hok; exact absurd hok (by simp)
    | cons row0 tail =>
        rw [hfilter] at hok
        have hr : r = mapToRule (projectRow getRuleSelectColumns row0) := by
          simpa using hok.symm
        subst hr
        simp only [List.head?_cons, Option.getD_some]
        constructor
        · exact getStringV_projectRow_of_contains getRuleSelectColumns
            "resolve_query" row0 (by decide)
        · exact getStringV_projectRow_of_contains getRuleSelectColumns
            "resolve_view_name" row0 (by decide)

/-- C9 witness: the amended theorem applied to the concrete snapshot holding
row9. -/
theorem C9_witness :
    (mapToRule (projectRow getRulesSelectColumns row9)).ResolveQuery = "" ∧
    (mapToRule (projectRow getRuleSelectColumns row9)).ResolveQuery =
      getStringV ((ruleRowFor [row9] "r9").getD []) "resolve_query" :=
  ⟨((C9_list_loses_resolver_fields [row9] "r9"
      (mapToRule (projectRow getRuleSelectColumns row9))).1
      (mapToRule (projectRow getRulesSelectColumns row9)) (by decide)).1,
   ((C9_list_loses_resolver_fields [row9] "r9"
      (mapToRule (projectRow getRuleSelectColumns row9))).2 (by decide)).1⟩

/-- C10: an alert id whose colon-split does not give exactly two parts makes
both the single-alert lookup and the acknowledgment return the format error
with an empty action trace: no engine query and no write happen. -/
theorem C10_malformed_alert_id (acks table : List AckRow) (alertID user : String)
    (now : Nat) (h : (goSplit alertID ':').length ≠ 2) :
    getAlertModel acks alertID =
      (Except.error "invalid alert ID format, expected 'rule_id:entity_id'", []) ∧
    acknowledgeAlert table alertID user now =
      (Except.error "invalid alert ID format, expected 'rule_id:entity_id'", []) := by
  constructor <;> simp [getAlertModel, acknowledgeAlert, h]

/-- C10 witness: the theorem applied to an id without a colon and to an id
whose entity part contains a colon. -/
theorem C10_witness :
    getAlertModel [] "abc" =
      (Except.error "invalid alert ID format, expected 'rule_id:entity_id'", []) ∧
    acknowledgeAlert [] "a:b:c" "op" 0 =
      (Except.error "invalid alert ID format, expected 'rule_id:entity_id'", []) :=
  ⟨(C10_malformed_alert_id [] [] "abc" "op" 0 (by decide)).1,
   (C10_malformed_alert_id [] [] "a:b:c" "op" 0 (by decide)).2⟩

end TpAlert
